import Mathlib

set_option maxHeartbeats 1000000

namespace OpenRead

/-! Shallow embedding of the open_read repository core: the dual-source
dictionary lookup resolver (the DictionaryBubble component, source file
src/unnamed/part_000: fetchOnlineDefinition and the fetchDefinition effect)
and the page rendering, text layer and edit persistence logic of
src/src/components/PDFViewer.tsx. -/

/-- JavaScript String.prototype.trim modelled on the character list: leading
and trailing whitespace removed. -/
def jsTrim (s : String) : String :=
  String.mk (((s.data.dropWhile Char.isWhitespace).reverse.dropWhile
    Char.isWhitespace).reverse)

/-- Worker for jsSplitWs. The flag records that the previous character was
part of a whitespace separator run whose preceding token has already been
emitted. -/
def splitWsGo : List Char → String → Bool → List String
  | [], cur, _ => [cur]
  | c :: cs, cur, inWs =>
    if c.isWhitespace then
      if inWs then splitWsGo cs cur true
      else cur :: splitWsGo cs "" true
    else
      splitWsGo cs (cur.push c) false

/-- JavaScript split on a whitespace-run pattern, as used by the source to
count tokens: splits on maximal whitespace runs; a leading or trailing run
contributes an empty element, and the empty string yields one empty
element. -/
def jsSplitWs (s : String) : List String := splitWsGo s.data "" false

/-- The fixed punctuation set stripped by fetchOnlineDefinition. -/
def punctChars : List Char := ['.', ',', '!', '?', ';', ':', '(', ')', '\"']

/-- cleanTerm from fetchOnlineDefinition: trim the term, strip the fixed
punctuation set, lowercase character-wise. -/
def cleanTerm (term : String) : String :=
  String.mk (((jsTrim term).data.filter
    (fun c => !(punctChars.contains c))).map Char.toLower)

/-- The validation gate of fetchOnlineDefinition: the request is rejected,
returning empty with no network call, when the cleaned term has length
below 2 or more than 3 whitespace-delimited tokens. -/
def cleanTermRejected (term : String) : Bool :=
  decide ((cleanTerm term).length < 2) ||
    decide (3 < (jsSplitWs (cleanTerm term)).length)

/-- One grouped meaning of a remote dictionary entry. partOfSpeech is none
when the field is absent; definitions holds each definition string of the
meaning, with an absent or empty definition field modelled as the empty
string, and an absent definitions array modelled as none. -/
structure Meaning where
  partOfSpeech : Option String
  definitions : Option (List String)
deriving DecidableEq

/-- One entry of the remote response array; an absent meanings array is
modelled as none. -/
structure Entry where
  meanings : Option (List Meaning)
deriving DecidableEq

/-- The displayed part of speech: the partOfSpeech field with the JavaScript
or-else fallback to the noun tag, so an absent or empty field falls back. -/
def posDisplay (pos : Option String) : String :=
  match pos with
  | none => "noun"
  | some p => if p = "" then "noun" else p

/-- The definition strings contributed by one meaning: the first two
elements of its definitions array, keeping those whose definition field is
truthy, each formatted as the displayed part of speech in parentheses
followed by the definition text. -/
def defsOfMeaning (m : Meaning) : List String :=
  (((m.definitions.getD []).take 2).filter (fun d => d != "")).map
    (fun d => "(" ++ posDisplay m.partOfSpeech ++ ") " ++ d)

/-- The per-meaning definition chunks of a whole response array, in the
order the nested forEach loops of the source visit them. -/
def meaningChunks (es : List Entry) : List (List String) :=
  es.flatMap (fun e => (e.meanings.getD []).map defsOfMeaning)

/-- The definition list fetchOnlineDefinition builds from a parsed array
response: the concatenation of the per-meaning chunks, capped at 3. -/
def extractDefs (es : List Entry) : List String :=
  (meaningChunks es).flatten.take 3

/-- Possible behaviors of the remote transport inside the try block of
fetchOnlineDefinition. -/
inductive RemoteBehavior where
  | netError (msg : String)
  | notOk
  | parseError (msg : String)
  | okNonArray
  | okEntries (entries : List Entry)
deriving DecidableEq

/-- The try block of fetchOnlineDefinition: validation gate first, then the
network request; a throwing fetch or a throwing JSON parse surfaces as an
error value here, a non-ok response or a non-array body yields no
definitions. -/
def onlineBody (term : String) (remote : RemoteBehavior) :
    Except String (List String) :=
  if cleanTermRejected term then Except.ok []
  else
    match remote with
    | RemoteBehavior.netError m => Except.error m
    | RemoteBehavior.notOk => Except.ok []
    | RemoteBehavior.parseError m => Except.error m
    | RemoteBehavior.okNonArray => Except.ok []
    | RemoteBehavior.okEntries es => Except.ok (extractDefs es)

/-- JavaScript try-catch: the handler consumes a raised error. -/
def jsTry {α : Type} (body : Except String α) (handler : String → α) : α :=
  match body with
  | Except.ok a => a
  | Except.error e => handler e

/-- fetchOnlineDefinition: the try block with its catch returning the empty
list. -/
def fetchOnlineDefinition (term : String) (remote : RemoteBehavior) :
    List String :=
  jsTry (onlineBody term remote) (fun _ => [])

/-- Number of HTTP requests the remote stage issues for a term: the fetch
expression is reached exactly when the validation gate passes (every
RemoteBehavior models an attempted request). -/
def fetchCallCount (term : String) : Nat :=
  if cleanTermRejected term then 0 else 1

/-- Possible behaviors of the local (Tauri offline dictionary) stage of
fetchDefinition. -/
inductive LocalBehavior where
  | unavailable
  | invokeMissing
  | throws (msg : String)
  | returns (results : List String)
deriving DecidableEq

/-- Whether the local stage actually calls the search command: it does so
exactly when the Tauri context is present and invoke is a function. -/
def localQueried : LocalBehavior → Bool
  | LocalBehavior.throws _ => true
  | LocalBehavior.returns _ => true
  | _ => false

/-- Whether the local stage produced no usable result, sending the resolver
to the remote fallback. -/
def localEmptyOrFailed : LocalBehavior → Bool
  | LocalBehavior.returns rs => rs.isEmpty
  | _ => true

/-- The source tag of a lookup result. The source code states are the local
string (shown as OFFLINE) and the online string (shown as ONLINE); the spec
names them Local and Remote. -/
inductive LookupSource where
  | Local
  | Remote
deriving DecidableEq

/-- Observable outcome of one fetchDefinition run: the definitions and
source state finally set, the terms passed to the local search command, the
number of runs of the remote lookup stage, and the number of HTTP requests
issued. -/
structure ResolveTrace where
  definitions : List String
  source : Option LookupSource
  localQueries : List String
  remoteStageCalls : Nat
  fetchCalls : Nat
deriving DecidableEq

/-- The remote fallback arm of fetchDefinition: run fetchOnlineDefinition
once and publish its results only when non-empty. -/
def remoteFallback (word : String) (remote : RemoteBehavior)
    (localQs : List String) : ResolveTrace :=
  let ds := fetchOnlineDefinition word remote
  { definitions := if ds.length > 0 then ds else [],
    source := if ds.length > 0 then some LookupSource.Remote else none,
    localQueries := localQs,
    remoteStageCalls := 1,
    fetchCalls := fetchCallCount word }

/-- The fetchDefinition effect of DictionaryBubble: try the local offline
dictionary first with the trimmed original word; a thrown local error is
caught (warn logged) and a missing context or empty result falls through;
only when no local result was found is the remote stage run. -/
def fetchDefinition (word : String) (loc : LocalBehavior)
    (remote : RemoteBehavior) : ResolveTrace :=
  let localQs : List String := if localQueried loc then [jsTrim word] else []
  match loc with
  | LocalBehavior.returns rs =>
    if rs.length > 0 then
      { definitions := rs,
        source := some LookupSource.Local,
        localQueries := localQs,
        remoteStageCalls := 0,
        fetchCalls := 0 }
    else remoteFallback word remote localQs
  | _ => remoteFallback word remote localQs

/-! Embedding of the PDFViewer page rendering, text layer and edit
persistence logic. -/

/-- Association list lookup for the edits map of a tab (Document.edits,
keyed by fragment id). -/
def lookupEdit : List (String × String) → String → Option String
  | [], _ => none
  | (k, v) :: rest, sid => if k = sid then some v else lookupEdit rest sid

/-- Modelled from the spec: the useTabStore module is not under src/; its
saveEdit(tabId, fragmentId, text) persists the pair of fragment id and text
into Document.edits, one edit per fragment, later edits overwrite. -/
def saveEdit (edits : List (String × String)) (sid text : String) :
    List (String × String) :=
  (sid, text) :: edits.filter (fun p => p.1 ≠ sid)

/-- The deterministic fragment id computed in the span forEach loop:
the page number concatenated with the zero-based span index. -/
def spanId (pageNum idx : Nat) : String :=
  "p" ++ toString pageNum ++ "-s" ++ toString idx

/-- The CSS value of the visual marker set on edited fragments. -/
def dashedMarker : String := "1px dashed var(--accent-color)"

/-- The observable pieces of a rendered text-layer span: its fragment id,
displayed text and the styles the edit logic touches. -/
structure SpanEl where
  id : String
  textContent : String
  color : String
  background : String
  borderBottom : String
  outline : String
  contentEditable : Bool
deriving DecidableEq

/-- One span as produced by the text layer for extracted item text, after
the edit-restore step: when the edits map holds a truthy entry for the
fragment id, the displayed content is overwritten with it and the dashed
marker is applied. -/
def renderSpan (edits : List (String × String)) (pageNum idx : Nat)
    (item : String) : SpanEl :=
  let sid := spanId pageNum idx
  let restored : Option String :=
    match lookupEdit edits sid with
    | some t => if t = "" then none else some t
    | none => none
  { id := sid,
    textContent := match restored with | some t => t | none => item,
    color := "",
    background := "",
    borderBottom := match restored with | some _ => dashedMarker | none => "",
    outline := "",
    contentEditable := false }

/-- The span forEach loop of renderPage over the extracted text items,
carrying the zero-based index. -/
def renderSpansFrom (edits : List (String × String)) (pageNum : Nat) :
    Nat → List String → List SpanEl
  | _, [] => []
  | idx, item :: rest =>
    renderSpan edits pageNum idx item ::
      renderSpansFrom edits pageNum (idx + 1) rest

/-- The text-layer spans of one rendered page. -/
def renderPageSpans (edits : List (String × String)) (pageNum : Nat)
    (items : List String) : List SpanEl :=
  renderSpansFrom edits pageNum 0 items

/-- Result of the blur listener: the updated span, the updated edits map
and whether saveEdit ran. -/
structure BlurOutcome where
  span : SpanEl
  edits : List (String × String)
  saved : Bool
deriving DecidableEq

/-- The blur listener attached to each span in edit mode: editing is
disabled and the outline cleared; when the text content is truthy and not
whitespace-only the span is made opaque, the dashed marker is set and the
edit is saved; otherwise the span is made transparent (color and background
only) and nothing is saved. -/
def blurHandler (isDarkMode : Bool) (edits : List (String × String))
    (pageNum idx : Nat) (s : SpanEl) : BlurOutcome :=
  let s1 : SpanEl := { s with contentEditable := false, outline := "none" }
  if s1.textContent ≠ "" ∧ jsTrim s1.textContent ≠ "" then
    { span := { s1 with
        color := if isDarkMode then "#e0e6ed" else "#1e293b",
        background := if isDarkMode then "#000000" else "#ffffff",
        borderBottom := dashedMarker },
      edits := saveEdit edits (spanId pageNum idx) s1.textContent,
      saved := true }
  else
    { span := { s1 with color := "transparent", background := "transparent" },
      edits := edits,
      saved := false }

/-- Per-page behavior of the renderPage body: pdf.getPage can reject before
the page container is appended; page.render can reject after the container
is appended; otherwise the page renders and its text-layer stage either
succeeds or throws (the latter is caught by the try around it). -/
inductive PageSource where
  | getPageError (msg : String)
  | renderError (msg : String)
  | ok (textLayerOk : Bool)
deriving DecidableEq

/-- Observable outcome of one loadPdf run: the page numbers whose container
was appended, in order; whether the loadPdf catch logged an error; and the
pages whose text-layer failure was warn-logged. -/
structure LoadResult where
  committed : List Nat
  errorLogged : Bool
  warnedPages : List Nat
deriving DecidableEq

/-- The sequential page loop of loadPdf, starting at page number n. A
rejection from getPage or render propagates out of renderPage into the
loadPdf catch, which logs the error; the loop is inside the try, so the
remaining pages are not rendered. A text-layer failure is caught inside
renderPage, warn logged, and the loop continues. -/
def runPages : Nat → List PageSource → LoadResult
  | _, [] => { committed := [], errorLogged := false, warnedPages := [] }
  | n, p :: rest =>
    match p with
    | PageSource.getPageError _ =>
      { committed := [], errorLogged := true, warnedPages := [] }
    | PageSource.renderError _ =>
      { committed := [n], errorLogged := true, warnedPages := [] }
    | PageSource.ok tlOk =>
      let r := runPages (n + 1) rest
      { committed := n :: r.committed,
        errorLogged := r.errorLogged,
        warnedPages := if tlOk then r.warnedPages else n :: r.warnedPages }

/-- loadPdf: after the document load resolves, the active flag is checked
once; when it is still set, the container is cleared and the pages render
sequentially from page 1. -/
def loadPdf (activeAtCheck : Bool) (pages : List PageSource) : LoadResult :=
  if activeAtCheck then runPages 1 pages
  else { committed := [], errorLogged := false, warnedPages := [] }

/-- A teardown schedule: none means the effect cleanup never runs during
the load; some k means the cleanup clears the active flag after k pages
have been committed (k = 0: before the single post-load check). -/
def teardownActiveAtCheck (clearAfter : Option Nat) : Bool :=
  match clearAfter with
  | some 0 => false
  | _ => true

/-- A loadPdf run under a teardown schedule: the only point at which the
source consults the active flag is the single post-load check. -/
def loadWithTeardown (clearAfter : Option Nat) (pages : List PageSource) :
    LoadResult :=
  loadPdf (teardownActiveAtCheck clearAfter) pages

/-- The pages of a load result that were appended after the teardown point:
page i is the i-th commit, so it happens after the flag was cleared exactly
when i exceeds the number of pages committed before teardown. -/
def staleCommits (clearAfter : Option Nat) (r : LoadResult) : List Nat :=
  match clearAfter with
  | none => []
  | some k => r.committed.filter (fun i => decide (k < i))

/-- A remote response with one entry and two grouped meanings, as in the
serendipity scenario of the spec. -/
def sampleEntries : List Entry :=
  [Entry.mk (some
    [Meaning.mk (some "noun")
      (some ["unexpected luck", "a happy accident", "a fortunate find"]),
     Meaning.mk (some "adjective") (some ["marked by lucky finds"])])]

/-- Every page of the list decodes and renders; only the text-layer stage
may fail. -/
def decodeOkB : List PageSource → Bool
  | [] => true
  | PageSource.ok _ :: rest => decodeOkB rest
  | _ => false

lemma range'_cons (s n : Nat) :
    List.range' s (n + 1) = s :: List.range' (s + 1) n := rfl

lemma runPages_decodeOk : ∀ (pages : List PageSource) (n : Nat),
    decodeOkB pages = true →
    (runPages n pages).committed = List.range' n pages.length
    ∧ (runPages n pages).errorLogged = false
  | [], n, _ => by simp [runPages]
  | PageSource.ok b :: rest, n, h => by
    have ih := runPages_decodeOk rest (n + 1) (by simpa [decodeOkB] using h)
    simp [runPages, ih.1, ih.2, range'_cons]
  | PageSource.getPageError m :: rest, n, h => by simp [decodeOkB] at h
  | PageSource.renderError m :: rest, n, h => by simp [decodeOkB] at h

lemma runPages_getPageError : ∀ (pre : List PageSource) (n : Nat)
    (msg : String) (post : List PageSource), decodeOkB pre = true →
    (runPages n (pre ++ PageSource.getPageError msg :: post)).committed
      = List.range' n pre.length
    ∧ (runPages n (pre ++ PageSource.getPageError msg :: post)).errorLogged
      = true
  | [], n, msg, post, _ => by simp [runPages]
  | PageSource.ok b :: rest, n, msg, post, h => by
    have ih := runPages_getPageError rest (n + 1) msg post
      (by simpa [decodeOkB] using h)
    simp [runPages, ih.1, ih.2, range'_cons]
  | PageSource.getPageError m :: rest, n, msg, post, h => by
    simp [decodeOkB] at h
  | PageSource.renderError m :: rest, n, msg, post, h => by
    simp [decodeOkB] at h

lemma lookupEdit_saveEdit (edits : List (String × String)) (sid t : String) :
    lookupEdit (saveEdit edits sid t) sid = some t := by
  simp [saveEdit, lookupEdit]

lemma renderSpansFrom_getElem : ∀ (items : List String)
    (edits : List (String × String)) (pageNum start i : Nat),
    (renderSpansFrom edits pageNum start items)[i]?
      = (items[i]?).map (fun item => renderSpan edits pageNum (start + i) item)
  | [], _, _, _, _ => by simp [renderSpansFrom]
  | item :: rest, edits, pn, start, 0 => by simp [renderSpansFrom]
  | item :: rest, edits, pn, start, i + 1 => by
    simp only [renderSpansFrom, List.getElem?_cons_succ]
    rw [renderSpansFrom_getElem rest edits pn (start + 1) i]
    have harith : start + 1 + i = start + (i + 1) := by omega
    rw [harith]

lemma renderSpansFrom_ids : ∀ (items : List String)
    (edits : List (String × String)) (pageNum start : Nat),
    (renderSpansFrom edits pageNum start items).map SpanEl.id
      = (List.range' start items.length).map (spanId pageNum)
  | [], _, _, _ => rfl
  | item :: rest, edits, pn, start => by
    simp only [renderSpansFrom, List.map_cons, List.length_cons, range'_cons]
    exact congrArg₂ _ rfl (renderSpansFrom_ids rest edits pn (start + 1))

/-- Claim C9: rendering the same page twice with the same extracted text
content assigns every fragment the same FragmentId in both runs (whatever
the edits maps are), because the id is computed purely as the page number
concatenated with the zero-based ordinal of the fragment in extraction
order. -/
theorem C9_fragment_id_deterministic (pageNum : Nat) (items : List String)
    (edits1 edits2 : List (String × String)) :
    (renderPageSpans edits1 pageNum items).map SpanEl.id
      = (renderPageSpans edits2 pageNum items).map SpanEl.id
    ∧ (renderPageSpans edits1 pageNum items).map SpanEl.id
      = (List.range items.length).map (spanId pageNum)
    ∧ ∀ i : Nat, spanId pageNum i
        = "p" ++ toString pageNum ++ "-s" ++ toString i := by
  refine ⟨?_, ?_, fun i => rfl⟩
  · rw [renderPageSpans, renderPageSpans, renderSpansFrom_ids,
      renderSpansFrom_ids]
  · rw [renderPageSpans, renderSpansFrom_ids, List.range_eq_range']

/-- Claim C1 counterexample: with a persisted edit for fragment p1-s0,
blurring that fragment with empty text neither removes the edits map entry
nor the dashed marker, and a re-render of the page still displays the
persisted edit instead of the original content. -/
theorem C1_counterexample :
    (blurHandler false (saveEdit [] (spanId 1 0) "hello") 1 0
        (SpanEl.mk (spanId 1 0) "" "" "#ffffff" dashedMarker "none" true)).edits
      = saveEdit [] (spanId 1 0) "hello"
    ∧ lookupEdit (blurHandler false (saveEdit [] (spanId 1 0) "hello") 1 0
        (SpanEl.mk (spanId 1 0) "" "" "#ffffff" dashedMarker "none" true)).edits
        (spanId 1 0) = some "hello"
    ∧ (blurHandler false (saveEdit [] (spanId 1 0) "hello") 1 0
        (SpanEl.mk (spanId 1 0) "" "" "#ffffff" dashedMarker
          "none" true)).span.borderBottom = dashedMarker
    ∧ (renderPageSpans (blurHandler false (saveEdit [] (spanId 1 0) "hello")
        1 0 (SpanEl.mk (spanId 1 0) "" "" "#ffffff" dashedMarker
          "none" true)).edits 1 ["original text"]).map SpanEl.textContent
      = ["hello"] := by decide

/-- Claim C1 (amended): deactivating a fragment whose text is empty leaves
the persisted edits map unchanged (the entry for its FragmentId is not
removed), saves nothing, sets only the color and background to transparent
while leaving the dashed marker style as it was, and a subsequent re-render
therefore renders exactly as before the blur, displaying the persisted edit
rather than the original content. -/
theorem C1_empty_blur_keeps_edit (isDark : Bool) (edits : List (String × String))
    (pageNum idx : Nat) (s : SpanEl) (h : s.textContent = "") :
    (blurHandler isDark edits pageNum idx s).edits = edits
    ∧ (blurHandler isDark edits pageNum idx s).saved = false
    ∧ (blurHandler isDark edits pageNum idx s).span.color = "transparent"
    ∧ (blurHandler isDark edits pageNum idx s).span.background = "transparent"
    ∧ (blurHandler isDark edits pageNum idx s).span.borderBottom
        = s.borderBottom
    ∧ ∀ items : List String,
        renderPageSpans (blurHandler isDark edits pageNum idx s).edits
            pageNum items
          = renderPageSpans edits pageNum items := by
  simp [blurHandler, h]

/-- Claim C1 witness: a concrete instance of the amended claim at fragment
p1-s0 with a previously persisted edit. -/
theorem C1_witness :
    (blurHandler false [(spanId 1 0, "hello")] 1 0
        (SpanEl.mk (spanId 1 0) "" "" "" dashedMarker "none" true)).edits
      = [(spanId 1 0, "hello")]
    ∧ (blurHandler false [(spanId 1 0, "hello")] 1 0
        (SpanEl.mk (spanId 1 0) "" "" "" dashedMarker "none" true)).saved
      = false := by
  have h := C1_empty_blur_keeps_edit false [(spanId 1 0, "hello")] 1 0
    (SpanEl.mk (spanId 1 0) "" "" "" dashedMarker "none" true) rfl
  exact ⟨h.1, h.2.1⟩

/-- Claim C8 counterexample: the text of one space character is non-empty,
yet blurring a fragment holding it persists nothing (the source requires
the trimmed text to be non-empty), so re-rendering the page displays the
original content instead of the committed text. -/
theorem C8_counterexample :
    (blurHandler false [] 1 0
        (SpanEl.mk (spanId 1 0) " " "" "" "" "" true)).saved = false
    ∧ (blurHandler false [] 1 0
        (SpanEl.mk (spanId 1 0) " " "" "" "" "" true)).edits = []
    ∧ (renderPageSpans (blurHandler false [] 1 0
        (SpanEl.mk (spanId 1 0) " " "" "" "" "" true)).edits 1
        ["original text"]).map SpanEl.textContent = ["original text"] := by
  decide

/-- Claim C8 (amended): committing edit text T whose trimmed form is
non-empty (whitespace-only text is treated as empty and not persisted,
which is the divergence from the original claim) stores the pair of
FragmentId and T in the edits map, and re-rendering the same page restores
T as the displayed content of the fragment at the same ordinal with the
dashed marker reapplied, without user action. -/
theorem C8_roundtrip (isDark : Bool) (edits : List (String × String))
    (pageNum idx : Nat) (s : SpanEl) (items : List String)
    (hT : jsTrim s.textContent ≠ "") (hidx : idx < items.length) :
    lookupEdit (blurHandler isDark edits pageNum idx s).edits
        (spanId pageNum idx) = some s.textContent
    ∧ (blurHandler isDark edits pageNum idx s).saved = true
    ∧ ((renderPageSpans (blurHandler isDark edits pageNum idx s).edits
        pageNum items)[idx]?).map SpanEl.textContent = some s.textContent
    ∧ ((renderPageSpans (blurHandler isDark edits pageNum idx s).edits
        pageNum items)[idx]?).map SpanEl.borderBottom = some dashedMarker := by
  have hne : s.textContent ≠ "" := by
    intro h0
    exact hT (by rw [h0]; rfl)
  have hb : (blurHandler isDark edits pageNum idx s).edits
      = saveEdit edits (spanId pageNum idx) s.textContent
      ∧ (blurHandler isDark edits pageNum idx s).saved = true := by
    simp [blurHandler, hne, hT]
  refine ⟨?_, hb.2, ?_, ?_⟩
  · rw [hb.1]
    exact lookupEdit_saveEdit edits (spanId pageNum idx) s.textContent
  · rw [hb.1, renderPageSpans, renderSpansFrom_getElem,
      List.getElem?_eq_getElem hidx]
    simp [renderSpan, lookupEdit_saveEdit, hne]
  · rw [hb.1, renderPageSpans, renderSpansFrom_getElem,
      List.getElem?_eq_getElem hidx]
    simp [renderSpan, lookupEdit_saveEdit, hne]

/-- Claim C8 witness: a concrete commit of text T on fragment p1-s0 whose
persisted entry is restored. -/
theorem C8_witness :
    lookupEdit (blurHandler false [] 1 0
        (SpanEl.mk (spanId 1 0) "T" "" "" "" "" true)).edits (spanId 1 0)
      = some "T"
    ∧ ((renderPageSpans (blurHandler false [] 1 0
        (SpanEl.mk (spanId 1 0) "T" "" "" "" "" true)).edits 1
        ["original"])[0]?).map SpanEl.textContent = some "T" := by
  have h := C8_roundtrip false [] 1 0
    (SpanEl.mk (spanId 1 0) "T" "" "" "" "" true) ["original"]
    (by decide) (by decide)
  exact ⟨h.1, h.2.2.1⟩

/-- Claim C2 counterexample: with three pages where the second fails to
decode, the loop commits only page 1; the third (sibling) page is never
rendered, so one page failure does abort the remaining pages (the error is
logged by the single catch in loadPdf). -/
theorem C2_counterexample :
    (loadPdf true [PageSource.ok true, PageSource.getPageError "bad xref",
        PageSource.ok true]).committed = [1]
    ∧ (loadPdf true [PageSource.ok true, PageSource.getPageError "bad xref",
        PageSource.ok true]).errorLogged = true := by decide

/-- Claim C2 (amended): a text-layer failure on a page is caught inside
renderPage and only warn-logged, so every decodable page still renders and
is appended and no error is logged; but a page whose decode fails throws
out of renderPage into the single loadPdf catch: the error is logged once
and the remaining sibling pages are not rendered, which is the divergence
from the original claim. -/
theorem C2_page_failure_behavior :
    (∀ pages : List PageSource, decodeOkB pages = true →
      (loadPdf true pages).committed = List.range' 1 pages.length
      ∧ (loadPdf true pages).errorLogged = false)
    ∧ (∀ (pre : List PageSource) (msg : String) (post : List PageSource),
        decodeOkB pre = true →
        (loadPdf true (pre ++ PageSource.getPageError msg :: post)).committed
          = List.range' 1 pre.length
        ∧ (loadPdf true
            (pre ++ PageSource.getPageError msg :: post)).errorLogged
          = true) := by
  constructor
  · intro pages h
    simpa [loadPdf] using runPages_decodeOk pages 1 h
  · intro pre msg post h
    simpa [loadPdf] using runPages_getPageError pre 1 msg post h

/-- Claim C2 witness: a concrete two-page document whose second page has a
failing text layer still commits both pages with no error logged. -/
theorem C2_witness :
    (loadPdf true [PageSource.ok true, PageSource.ok false]).committed
      = [1, 2]
    ∧ (loadPdf true [PageSource.ok true, PageSource.ok false]).errorLogged
      = false := by
  have h := C2_page_failure_behavior.1 [PageSource.ok true, PageSource.ok false] (by decide)
  exact ⟨h.1.trans (by decide), h.2⟩

/-- Claim C3 counterexample: a two-page document with a teardown that
clears the active flag after the first page commits: both pages are still
appended, so page 2 is a stale commit appended after teardown, contrary to
the claim that the flag is checked before committing each page. -/
theorem C3_counterexample :
    (loadWithTeardown (some 1)
        [PageSource.ok true, PageSource.ok true]).committed = [1, 2]
    ∧ staleCommits (some 1)
        (loadWithTeardown (some 1) [PageSource.ok true, PageSource.ok true])
      = [2] := by decide

/-- Claim C3 (amended): the active flag is consulted exactly once, after
the document load resolves and before any page is committed: a teardown
before that check prevents every page from being appended, but a teardown
after k committed pages (k at least 1) is never observed again, so the run
is identical to one with no teardown and the remaining pages are still
appended, which is the divergence from the original claim. -/
theorem C3_active_checked_once (pages : List PageSource) (k : Nat) (hk : 1 ≤ k) :
    (loadWithTeardown (some 0) pages).committed = []
    ∧ loadWithTeardown (some k) pages = loadWithTeardown none pages := by
  constructor
  · rfl
  · cases k with
    | zero => exact absurd hk (by decide)
    | succ k => rfl

/-- Claim C3 witness: a concrete instance of the amended claim with one
page and a teardown after the first commit. -/
theorem C3_witness :
    (loadWithTeardown (some 0) [PageSource.ok true]).committed = []
    ∧ loadWithTeardown (some 1) [PageSource.ok true]
      = loadWithTeardown none [PageSource.ok true] :=
  C3_active_checked_once [PageSource.ok true] 1 (by decide)

/-- Claim C4: the resolver tries the local offline source first, querying
it with the original trimmed, non-normalized term; a non-empty local result
is returned tagged Local and the remote stage never runs; when the local
source is unavailable, throws, or returns empty, the remote lookup stage
runs exactly once, issuing its HTTP request exactly when the term passes
validation. -/
theorem C4_local_first (word : String) (loc : LocalBehavior)
    (remote : RemoteBehavior) :
    (localQueried loc = true →
      (fetchDefinition word loc remote).localQueries = [jsTrim word])
    ∧ (∀ rs : List String, rs ≠ [] →
      (fetchDefinition word (LocalBehavior.returns rs) remote).definitions
        = rs
      ∧ (fetchDefinition word (LocalBehavior.returns rs) remote).source
        = some LookupSource.Local
      ∧ (fetchDefinition word
          (LocalBehavior.returns rs) remote).remoteStageCalls = 0
      ∧ (fetchDefinition word (LocalBehavior.returns rs) remote).fetchCalls
        = 0)
    ∧ (localEmptyOrFailed loc = true →
      (fetchDefinition word loc remote).remoteStageCalls = 1
      ∧ (fetchDefinition word loc remote).fetchCalls
        = (if cleanTermRejected word then 0 else 1)) := by
  refine ⟨?_, ?_, ?_⟩
  · intro hq
    cases loc with
    | unavailable => simp [localQueried] at hq
    | invokeMissing => simp [localQueried] at hq
    | throws m => simp [fetchDefinition, remoteFallback, localQueried]
    | returns rs =>
      by_cases h : rs.length > 0
      · simp [fetchDefinition, localQueried, h]
      · simp [fetchDefinition, remoteFallback, localQueried, h]
  · intro rs hrs
    have h : rs.length > 0 := List.length_pos.mpr hrs
    simp [fetchDefinition, localQueried, h]
  · intro hef
    cases loc with
    | unavailable =>
      simp [fetchDefinition, remoteFallback, fetchCallCount, localQueried]
    | invokeMissing =>
      simp [fetchDefinition, remoteFallback, fetchCallCount, localQueried]
    | throws m =>
      simp [fetchDefinition, remoteFallback, fetchCallCount, localQueried]
    | returns rs =>
      have hz : rs = [] := by simpa [localEmptyOrFailed] using hef
      subst hz
      simp [fetchDefinition, remoteFallback, fetchCallCount, localQueried]

/-- Claim C4 witness: a concrete local hit never reaches the remote stage,
a concrete local miss runs the remote stage exactly once, and the local
query uses the trimmed original word. -/
theorem C4_witness :
    (fetchDefinition "hello" (LocalBehavior.returns ["a greeting"])
        RemoteBehavior.notOk).source = some LookupSource.Local
    ∧ (fetchDefinition "hello" (LocalBehavior.returns ["a greeting"])
        RemoteBehavior.notOk).remoteStageCalls = 0
    ∧ (fetchDefinition "hello" LocalBehavior.unavailable
        RemoteBehavior.notOk).remoteStageCalls = 1
    ∧ (fetchDefinition " hello " (LocalBehavior.throws "ipc failed")
        RemoteBehavior.notOk).localQueries = ["hello"] := by
  have h1 := (C4_local_first "hello" (LocalBehavior.returns ["a greeting"])
    RemoteBehavior.notOk).2.1 ["a greeting"] (by decide)
  have h2 := (C4_local_first "hello" LocalBehavior.unavailable
    RemoteBehavior.notOk).2.2 (by decide)
  have h3 := (C4_local_first " hello " (LocalBehavior.throws "ipc failed")
    RemoteBehavior.notOk).1 (by decide)
  exact ⟨h1.2.1, h1.2.2.1, h2.1, h3.trans (by decide)⟩

/-- Claim C5 counterexample: a term of four whitespace-delimited tokens is
past the rejection gate bound, yet with the local offline source available
and returning a result, the resolver returns that non-empty result rather
than empty: normalization and rejection live only in the remote stage. -/
theorem C5_counterexample :
    cleanTermRejected "alpha beta gamma delta" = true
    ∧ (fetchDefinition "alpha beta gamma delta"
        (LocalBehavior.returns ["a local definition"])
        RemoteBehavior.notOk).definitions = ["a local definition"]
    ∧ (fetchDefinition "alpha beta gamma delta"
        (LocalBehavior.returns ["a local definition"])
        RemoteBehavior.notOk).source = some LookupSource.Local := by decide

/-- Claim C5 (amended): normalization trims the term, strips the fixed
punctuation set and lowercases it; the rejection gate (normalized length
below 2 or more than 3 whitespace-delimited tokens) applies to the remote
stage only: a rejected term produces an empty remote result with no network
call, so the resolver returns the explicit empty whenever the local stage
also yielded nothing; a non-empty local result is still returned for such
terms, which is the divergence from the original claim. -/
theorem C5_normalization_remote_stage (remote : RemoteBehavior) (loc : LocalBehavior) :
    cleanTerm "Running!! " = "running"
    ∧ (∀ word : String, cleanTermRejected word = true →
        fetchOnlineDefinition word remote = []
        ∧ fetchCallCount word = 0
        ∧ (localEmptyOrFailed loc = true →
            (fetchDefinition word loc remote).definitions = []
            ∧ (fetchDefinition word loc remote).source = none
            ∧ (fetchDefinition word loc remote).fetchCalls = 0)) := by
  refine ⟨by decide, ?_⟩
  intro word hrej
  have hon : fetchOnlineDefinition word remote = [] := by
    simp [fetchOnlineDefinition, onlineBody, hrej, jsTry]
  refine ⟨hon, by simp [fetchCallCount, hrej], ?_⟩
  intro hef
  cases loc with
  | unavailable =>
    simp [fetchDefinition, remoteFallback, hon, fetchCallCount, hrej,
      localQueried]
  | invokeMissing =>
    simp [fetchDefinition, remoteFallback, hon, fetchCallCount, hrej,
      localQueried]
  | throws m =>
    simp [fetchDefinition, remoteFallback, hon, fetchCallCount, hrej,
      localQueried]
  | returns rs =>
    have hz : rs = [] := by simpa [localEmptyOrFailed] using hef
    subst hz
    simp [fetchDefinition, remoteFallback, hon, fetchCallCount, hrej,
      localQueried]

/-- Claim C5 witness: the normalization example and a concrete rejected
term resolved with no local source: explicit empty, no network call. -/
theorem C5_witness :
    cleanTerm "Running!! " = "running"
    ∧ (fetchDefinition "alpha beta gamma delta" LocalBehavior.unavailable
        RemoteBehavior.notOk).definitions = []
    ∧ (fetchDefinition "alpha beta gamma delta" LocalBehavior.unavailable
        RemoteBehavior.notOk).fetchCalls = 0 := by
  have h := C5_normalization_remote_stage RemoteBehavior.notOk LocalBehavior.unavailable
  have h2 := h.2 "alpha beta gamma delta" (by decide)
  exact ⟨h.1, (h2.2.2 (by decide)).1, (h2.2.2 (by decide)).2.2⟩

lemma remoteFallback_cases (word : String) (remote : RemoteBehavior)
    (qs : List String) :
    ((remoteFallback word remote qs).definitions ≠ []
      ∧ (remoteFallback word remote qs).source = some LookupSource.Remote)
    ∨ ((remoteFallback word remote qs).definitions = []
      ∧ (remoteFallback word remote qs).source = none) := by
  by_cases h : (fetchOnlineDefinition word remote).length > 0
  · refine Or.inl ⟨?_, ?_⟩
    · simpa [remoteFallback, h] using List.length_pos.mp h
    · simp [remoteFallback, h]
  · refine Or.inr ⟨?_, ?_⟩ <;> simp [remoteFallback, h]

/-- Claim C6: the resolver never propagates an exception: a rejected local
invoke is caught and treated as no local result (the resolver outcome
matches an empty local result), a throwing remote transport or parse stage
is caught by the remote catch and treated as an empty remote result, and
for every behavior of both stages the caller receives either a populated
result with a source tag or the explicit empty with no source tag. -/
theorem C6_no_exception (word : String) (m em : String) (loc : LocalBehavior)
    (remote : RemoteBehavior) :
    ((fetchDefinition word (LocalBehavior.throws m) remote).definitions
      = (fetchDefinition word (LocalBehavior.returns []) remote).definitions
    ∧ (fetchDefinition word (LocalBehavior.throws m) remote).source
      = (fetchDefinition word (LocalBehavior.returns []) remote).source)
    ∧ (onlineBody word remote = Except.error em →
        fetchOnlineDefinition word remote = [])
    ∧ (((fetchDefinition word loc remote).definitions ≠ []
        ∧ ((fetchDefinition word loc remote).source).isSome = true)
      ∨ ((fetchDefinition word loc remote).definitions = []
        ∧ (fetchDefinition word loc remote).source = none)) := by
  refine ⟨⟨rfl, rfl⟩, ?_, ?_⟩
  · intro h
    simp [fetchOnlineDefinition, jsTry, h]
  · have hgen : ∀ qs : List String,
        ((remoteFallback word remote qs).definitions ≠ []
          ∧ ((remoteFallback word remote qs).source).isSome = true)
        ∨ ((remoteFallback word remote qs).definitions = []
          ∧ (remoteFallback word remote qs).source = none) := by
      intro qs
      rcases remoteFallback_cases word remote qs with ⟨h1, h2⟩ | ⟨h1, h2⟩
      · exact Or.inl ⟨h1, by rw [h2]; rfl⟩
      · exact Or.inr ⟨h1, h2⟩
    cases loc with
    | unavailable => exact hgen []
    | invokeMissing => exact hgen []
    | throws m2 => exact hgen [jsTrim word]
    | returns rs =>
      by_cases h : rs.length > 0
      · refine Or.inl ⟨?_, ?_⟩
        · simpa [fetchDefinition, h] using List.length_pos.mp h
        · simp [fetchDefinition, h]
      · have hz : rs = [] := List.eq_nil_of_length_eq_zero (by omega)
        subst hz
        exact hgen [jsTrim word]

/-- Claim C6 witness: a concrete run where the local stage throws and the
remote fetch throws still hands the caller the explicit empty result. -/
theorem C6_witness :
    (fetchDefinition "serendipity" (LocalBehavior.throws "ipc failed")
        (RemoteBehavior.netError "offline")).definitions
      = (fetchDefinition "serendipity" (LocalBehavior.returns [])
        (RemoteBehavior.netError "offline")).definitions
    ∧ fetchOnlineDefinition "serendipity" (RemoteBehavior.netError "offline")
      = []
    ∧ (((fetchDefinition "serendipity" (LocalBehavior.throws "ipc failed")
        (RemoteBehavior.netError "offline")).definitions ≠ []
      ∧ ((fetchDefinition "serendipity" (LocalBehavior.throws "ipc failed")
        (RemoteBehavior.netError "offline")).source).isSome = true)
      ∨ ((fetchDefinition "serendipity" (LocalBehavior.throws "ipc failed")
        (RemoteBehavior.netError "offline")).definitions = []
      ∧ (fetchDefinition "serendipity" (LocalBehavior.throws "ipc failed")
        (RemoteBehavior.netError "offline")).source = none)) := by
  have h := C6_no_exception "serendipity" "ipc failed" "offline"
    (LocalBehavior.throws "ipc failed") (RemoteBehavior.netError "offline")
  exact ⟨h.1.1, h.2.1 rfl, h.2.2⟩

/-- Claim C7: from a parsed remote array response the resolver takes at
most 2 definitions per grouped meaning and at most 3 in total, each
definition string formatted as the meaning part of speech in parentheses
followed by the definition text; and when the local stage yielded nothing
and the term passes validation, the resolver publishes exactly these parsed
definitions, tagging a non-empty result Remote (the online source). -/
theorem C7_remote_caps (es : List Entry) (word : String) (loc : LocalBehavior) :
    (∀ chunk ∈ meaningChunks es, chunk.length ≤ 2)
    ∧ extractDefs es = (meaningChunks es).flatten.take 3
    ∧ (extractDefs es).length ≤ 3
    ∧ (∀ s ∈ extractDefs es, ∃ e ∈ es, ∃ m ∈ e.meanings.getD [],
        ∃ d : String, s = "(" ++ posDisplay m.partOfSpeech ++ ") " ++ d)
    ∧ (localEmptyOrFailed loc = true → cleanTermRejected word = false →
        (fetchDefinition word loc (RemoteBehavior.okEntries es)).definitions
          = extractDefs es
        ∧ (extractDefs es ≠ [] →
          (fetchDefinition word loc (RemoteBehavior.okEntries es)).source
            = some LookupSource.Remote)) := by
  have hon : cleanTermRejected word = false →
      fetchOnlineDefinition word (RemoteBehavior.okEntries es)
        = extractDefs es := by
    intro hval
    simp [fetchOnlineDefinition, onlineBody, hval, jsTry]
  refine ⟨?_, rfl, ?_, ?_, ?_⟩
  · intro chunk hc
    rw [meaningChunks, List.mem_flatMap] at hc
    obtain ⟨e, he, hc⟩ := hc
    rw [List.mem_map] at hc
    obtain ⟨m, hm, rfl⟩ := hc
    calc (defsOfMeaning m).length
        ≤ ((m.definitions.getD []).take 2).length := by
          rw [defsOfMeaning, List.length_map]
          exact List.length_filter_le _ _
      _ ≤ 2 := by
          rw [List.length_take]
          exact Nat.min_le_left _ _
  · show ((meaningChunks es).flatten.take 3).length ≤ 3
    rw [List.length_take]
    exact Nat.min_le_left _ _
  · intro sdef hs
    have hs2 : sdef ∈ (meaningChunks es).flatten := List.take_subset _ _ hs
    rw [List.mem_flatten] at hs2
    obtain ⟨chunk, hchunk, hsc⟩ := hs2
    rw [meaningChunks, List.mem_flatMap] at hchunk
    obtain ⟨e, he, hchunk⟩ := hchunk
    rw [List.mem_map] at hchunk
    obtain ⟨m, hm, rfl⟩ := hchunk
    rw [defsOfMeaning, List.mem_map] at hsc
    obtain ⟨d, hd, rfl⟩ := hsc
    exact ⟨e, he, m, hm, d, rfl⟩
  · intro hef hval
    have hfd : fetchDefinition word loc (RemoteBehavior.okEntries es)
        = remoteFallback word (RemoteBehavior.okEntries es)
          (if localQueried loc then [jsTrim word] else []) := by
      cases loc with
      | unavailable => rfl
      | invokeMissing => rfl
      | throws m => rfl
      | returns rs =>
        have hz : rs = [] := by simpa [localEmptyOrFailed] using hef
        subst hz
        rfl
    constructor
    · by_cases h : (extractDefs es).length > 0
      · rw [hfd]
        simp [remoteFallback, hon hval, h]
      · have hnil : extractDefs es = [] :=
          List.eq_nil_of_length_eq_zero (by omega)
        rw [hfd]
        simp [remoteFallback, hon hval, h, hnil]
    · intro hne
      have h : (extractDefs es).length > 0 := List.length_pos.mpr hne
      rw [hfd]
      simp [remoteFallback, hon hval, h]

/-- Claim C7 witness: the serendipity scenario on a concrete response with
two grouped meanings, published and tagged Remote with at most 3
definitions. -/
theorem C7_witness :
    (fetchDefinition "serendipity" LocalBehavior.unavailable
        (RemoteBehavior.okEntries sampleEntries)).definitions
      = extractDefs sampleEntries
    ∧ (fetchDefinition "serendipity" LocalBehavior.unavailable
        (RemoteBehavior.okEntries sampleEntries)).source
      = some LookupSource.Remote
    ∧ (extractDefs sampleEntries).length ≤ 3 := by
  have h := C7_remote_caps sampleEntries "serendipity" LocalBehavior.unavailable
  have h5 := h.2.2.2.2 (by decide) (by decide)
  exact ⟨h5.1, h5.2 (by decide), h.2.2.1⟩

/-- Claim C10: a meaning whose partOfSpeech field is absent keeps its
definitions (the first two truthy ones, subject to the overall cap) and
each is prefixed with the default noun part of speech, neither dropped nor
left unprefixed. -/
theorem C10_default_noun (ds : List String) :
    defsOfMeaning (Meaning.mk none (some ds))
      = ((ds.take 2).filter (fun d => d != "")).map
          (fun d => "(noun) " ++ d)
    ∧ extractDefs [Entry.mk (some [Meaning.mk none (some ds)])]
      = (((ds.take 2).filter (fun d => d != "")).map
          (fun d => "(noun) " ++ d)).take 3 := by
  constructor
  · rfl
  · simp only [extractDefs, meaningChunks, List.flatMap_cons, Option.getD_some,
      List.map_cons, List.map_nil, List.flatMap_nil, List.append_nil,
      List.flatten]
    rfl

end OpenRead
